import Mathlib

/-!
Verification of the remote-asset cache manager in
`src/utils/gdrive_manager.py` (listing cache with TTL and stale fallback,
bounded retry with exponential backoff, download cache keyed by
`file_id + "_" + filename`, asset resolver, cache administration).

The Python module is embedded shallowly: its process-wide mutable state
(`_video_list_cache`, `_video_cache`) is passed explicitly as association
lists; the remote service and the filesystem are an explicit environment
(`Env`); each Python function becomes a total Lean function that also
returns the observable trace the claims talk about (number of remote calls,
sleep durations, whether the service object was requested).  Exceptions in
the Python code are always caught inside the module, which is why every
embedded operation is total and returns its fallback value.
-/

set_option autoImplicit false

namespace GDrive

/-- One remote asset as returned by the Drive listing: a dict with keys
`id` and `name` (`fields="files(id, name)"` in `list_videos_in_folder`). -/
structure Asset where
  id : String
  name : String
  deriving DecidableEq

/-- The environment of one call into the module: whether
`get_gdrive_service` yields a service (it returns `None` when the service
cannot be created), the outcome of the i-th remote list attempt
(`None` models a raised `HttpError`/`Exception`), the outcome of the i-th
remote download attempt (on success, the fresh temp-file path produced by
`tempfile.NamedTemporaryFile`), which paths exist on disk
(`os.path.exists`), which `os.unlink` calls raise, and the current clock
value of `time.time()`. -/
structure Env where
  serviceAvailable : Bool
  listOracle : Nat → Option (List Asset)
  downloadOracle : Nat → Option String
  fileExists : String → Bool
  unlinkFails : String → Bool
  now : Nat

/-- The listing cache `_video_list_cache`: folder_id -> (videos, timestamp). -/
abbrev ListingCache := List (String × (List Asset × Nat))

/-- The download cache `_video_cache`: cache_key -> local temp path. -/
abbrev VideoCache := List (String × String)

/-- Lookup in a Python dict modelled as an association list. -/
def lookupA {α : Type} : List (String × α) → String → Option α
  | [], _ => none
  | (k, v) :: rest, key => if k = key then some v else lookupA rest key

/-- Deletion (`del d[k]`) in a Python dict modelled as an association list. -/
def eraseA {α : Type} : List (String × α) → String → List (String × α)
  | [], _ => []
  | (k, v) :: rest, key => if k = key then eraseA rest key else (k, v) :: eraseA rest key

/-- Assignment (`d[k] = v`) in a Python dict modelled as an association list. -/
def insertA {α : Type} (m : List (String × α)) (k : String) (v : α) : List (String × α) :=
  (k, v) :: eraseA m k

/-- `_VIDEO_LIST_CACHE_TTL = 300`. -/
def VIDEO_LIST_CACHE_TTL : Nat := 300

/-- The retry loop shared by `list_videos_in_folder` and
`download_video_to_temp`:

```
for attempt in range(max_retries):
    try:
        ...remote call...
        return result
    except ...:
        if attempt < max_retries - 1:
            time.sleep(retry_delay)
            retry_delay *= 2
```

`retryLoop oracle attempt remaining delay` runs the loop with `remaining`
attempts left, returning the successful result (or `none` after
exhaustion), the list of sleep durations in order, and the number of
remote-call attempts actually made. -/
def retryLoop {α : Type} (oracle : Nat → Option α) :
    Nat → Nat → Nat → Option α × List Nat × Nat
  | _, 0, _ => (none, [], 0)
  | attempt, remaining + 1, delay =>
    match oracle attempt with
    | some r => (some r, [], 1)
    | none =>
      if remaining = 0 then
        (none, [], 1)
      else
        let rest := retryLoop oracle (attempt + 1) remaining (delay * 2)
        (rest.1, delay :: rest.2.1, rest.2.2 + 1)

/-- Observable outcome of `list_videos_in_folder`: the returned list, the
listing cache after the call, how many remote list attempts were made,
the sleeps performed, and whether `get_gdrive_service()` was invoked. -/
structure ListOutcome where
  result : List Asset
  cache : ListingCache
  remoteCalls : Nat
  sleeps : List Nat
  serviceRequested : Bool
  deriving DecidableEq

/-- The stale-fallback taken by `list_videos_in_folder` both when the
service is unavailable and when all retries failed:
`if folder_id in _video_list_cache: return _video_list_cache[folder_id][0]`,
`return []` otherwise. -/
def listFallback (cache : ListingCache) (folderId : String) : List Asset :=
  match lookupA cache folderId with
  | some entry => entry.1
  | none => []

/-- The part of `list_videos_in_folder` after the fresh-cache check:
request the service (return the stale fallback if it is unavailable),
run the retry loop (`max_retries = 3`, `retry_delay = 1`), on success
store `(files, time.time())` in the cache and return the files, on
exhaustion return the stale fallback. -/
def listRemote (env : Env) (cache : ListingCache) (folderId : String) : ListOutcome :=
  if env.serviceAvailable then
    let r := retryLoop env.listOracle 0 3 1
    match r.1 with
    | some files => ⟨files, insertA cache folderId (files, env.now), r.2.2, r.2.1, true⟩
    | none => ⟨listFallback cache folderId, cache, r.2.2, r.2.1, true⟩
  else
    ⟨listFallback cache folderId, cache, 0, [], true⟩

/-- `list_videos_in_folder(folder_id, use_cache)`: if `use_cache` and a
cache entry exists and `time.time() - cached_time < _VIDEO_LIST_CACHE_TTL`,
return the cached list with no remote activity; otherwise go remote. -/
def listVideosInFolder (env : Env) (cache : ListingCache) (folderId : String)
    (useCache : Bool) : ListOutcome :=
  match (if useCache then lookupA cache folderId else none) with
  | some entry =>
    if env.now - entry.2 < VIDEO_LIST_CACHE_TTL then
      ⟨entry.1, cache, 0, [], false⟩
    else
      listRemote env cache folderId
  | none => listRemote env cache folderId

/-- Observable outcome of `download_video_to_temp`: the returned path (or
`None`), the download cache after the call, the number of remote download
attempts, the sleeps performed, and whether `get_gdrive_service()` was
invoked. -/
structure DownloadOutcome where
  result : Option String
  cache : VideoCache
  downloadCalls : Nat
  sleeps : List Nat
  serviceRequested : Bool
  deriving DecidableEq

/-- `cache_key = f"{file_id}_{filename}"`. -/
def cacheKey (fileId filename : String) : String :=
  fileId ++ "_" ++ filename

/-- The part of `download_video_to_temp` after the cache check: request the
service (return `None` if it is unavailable), run the retry loop
(`max_retries = 3`, `retry_delay = 2`), on success store the temp path
under the key and return it, on exhaustion return `None`. -/
def downloadRemote (env : Env) (vcache : VideoCache) (key : String) : DownloadOutcome :=
  if env.serviceAvailable then
    let r := retryLoop env.downloadOracle 0 3 2
    match r.1 with
    | some path => ⟨some path, insertA vcache key path, r.2.2, r.2.1, true⟩
    | none => ⟨none, vcache, r.2.2, r.2.1, true⟩
  else
    ⟨none, vcache, 0, [], true⟩

/-- `download_video_to_temp(file_id, filename)`: if the key is cached and
the cached path still exists on disk, return it with no remote activity;
if the key is cached but the file is gone, delete the entry and go remote;
on a plain miss go remote. -/
def downloadVideoToTemp (env : Env) (vcache : VideoCache) (fileId filename : String) :
    DownloadOutcome :=
  let key := cacheKey fileId filename
  match lookupA vcache key with
  | some path =>
    if env.fileExists path then
      ⟨some path, vcache, 0, [], false⟩
    else
      downloadRemote env (eraseA vcache key) key
  | none => downloadRemote env vcache key

/-- Observable outcome of `get_video_path`: the returned path (or `None`),
both caches after the call, and the remote activity of each phase. -/
structure ResolveOutcome where
  result : Option String
  listingCache : ListingCache
  videoCache : VideoCache
  remoteListCalls : Nat
  downloadCalls : Nat
  deriving DecidableEq

/-- `get_video_path(filename, folder_id)`: list the folder (with the cache
enabled), scan for the first entry with `video['name'] == filename`,
return `None` if there is none, otherwise download the matched id. -/
def getVideoPath (env : Env) (lcache : ListingCache) (vcache : VideoCache)
    (filename folderId : String) : ResolveOutcome :=
  let lo := listVideosInFolder env lcache folderId true
  match lo.result.find? (fun v => v.name == filename) with
  | none => ⟨none, lo.cache, vcache, lo.remoteCalls, 0⟩
  | some v =>
    let dl := downloadVideoToTemp env vcache v.id filename
    ⟨dl.result, lo.cache, dl.cache, lo.remoteCalls, dl.downloadCalls⟩

/-- Observable outcome of `clear_video_cache`: both caches after the call
and the paths whose backing files were actually deleted. -/
structure ClearOutcome where
  videoCache : VideoCache
  listingCache : ListingCache
  deletedPaths : List String
  deriving DecidableEq

/-- `clear_video_cache()`: for each cached entry, if its path exists try to
`os.unlink` it, catching and logging any failure so that the remaining
entries are still processed; finally `_video_cache.clear()`.  The listing
cache is not touched. -/
def clearVideoCache (env : Env) (lcache : ListingCache) (vcache : VideoCache) :
    ClearOutcome :=
  let deleted := vcache.filterMap
    (fun e => if env.fileExists e.2 && !env.unlinkFails e.2 then some e.2 else none)
  ⟨[], lcache, deleted⟩

/-- `get_all_video_filenames(folder_id)`: the names of the listed videos. -/
def getAllVideoFilenames (env : Env) (lcache : ListingCache) (folderId : String) :
    List String :=
  (listVideosInFolder env lcache folderId true).result.map Asset.name

/-! ### Association-list lemmas -/

@[simp]
theorem lookupA_insertA_self {α : Type} (m : List (String × α)) (k : String) (v : α) :
    lookupA (insertA m k v) k = some v := by
  simp [insertA, lookupA]

theorem lookupA_eraseA_ne {α : Type} (m : List (String × α)) (k key : String)
    (h : k ≠ key) : lookupA (eraseA m k) key = lookupA m key := by
  induction m with
  | nil => rfl
  | cons e rest ih =>
    obtain ⟨a, b⟩ := e
    by_cases he : a = k
    · subst he
      simp [eraseA, lookupA, ih, h]
    · by_cases hkey : a = key
      · subst hkey
        simp [eraseA, lookupA, he]
      · simp [eraseA, lookupA, he, hkey, ih]

theorem lookupA_insertA_ne {α : Type} (m : List (String × α)) (k key : String) (v : α)
    (h : k ≠ key) : lookupA (insertA m k v) key = lookupA m key := by
  simp [insertA, lookupA, h]
  exact lookupA_eraseA_ne m k key h

theorem lookupA_eraseA_self {α : Type} (m : List (String × α)) (k : String) :
    lookupA (eraseA m k) k = none := by
  induction m with
  | nil => rfl
  | cons e rest ih =>
    obtain ⟨a, b⟩ := e
    by_cases he : a = k
    · subst he
      simp [eraseA, ih]
    · simp [eraseA, lookupA, he, ih]

/-! ### Retry-loop lemmas -/

theorem retryLoop_first_some {α : Type} (oracle : Nat → Option α) (a n d : Nat) (r : α)
    (h : oracle a = some r) : retryLoop oracle a (n + 1) d = (some r, [], 1) := by
  simp [retryLoop, h]

theorem retryLoop_three_fail {α : Type} (oracle : Nat → Option α) (d : Nat)
    (h0 : oracle 0 = none) (h1 : oracle 1 = none) (h2 : oracle 2 = none) :
    retryLoop oracle 0 3 d = (none, [d, d * 2], 3) := by
  simp [retryLoop, h0, h1, h2]

theorem retryLoop_third_success {α : Type} (oracle : Nat → Option α) (d : Nat) (r : α)
    (h0 : oracle 0 = none) (h1 : oracle 1 = none) (h2 : oracle 2 = some r) :
    retryLoop oracle 0 3 d = (some r, [d, d * 2], 3) := by
  simp [retryLoop, h0, h1, h2]

theorem retryLoop_calls_le {α : Type} (oracle : Nat → Option α) :
    ∀ (n a d : Nat), (retryLoop oracle a n d).2.2 ≤ n := by
  intro n
  induction n with
  | zero => intro a d; simp [retryLoop]
  | succ m ih =>
    intro a d
    cases h : oracle a with
    | some r => simp [retryLoop, h]
    | none =>
      by_cases hm : m = 0
      · simp [retryLoop, h, hm]
      · simpa [retryLoop, h, hm] using ih (a + 1) (d * 2)

theorem retryLoop_calls_pos {α : Type} (oracle : Nat → Option α) (n a d : Nat) :
    1 ≤ (retryLoop oracle a (n + 1) d).2.2 := by
  cases h : oracle a with
  | some r => simp [retryLoop, h]
  | none =>
    by_cases hn : n = 0
    · simp [retryLoop, h, hn]
    · simp [retryLoop, h, hn]

theorem retryLoop_some_oracle {α : Type} (oracle : Nat → Option α) :
    ∀ (n a d : Nat) (r : α), (retryLoop oracle a n d).1 = some r → ∃ i, oracle i = some r := by
  intro n
  induction n with
  | zero => intro a d r h; simp [retryLoop] at h
  | succ m ih =>
    intro a d r h
    cases ho : oracle a with
    | some s =>
      refine ⟨a, ?_⟩
      rw [retryLoop_first_some oracle a m d s ho] at h
      simp at h
      rw [ho, h]
    | none =>
      by_cases hm : m = 0
      · simp [retryLoop, ho, hm] at h
      · simp [retryLoop, ho, hm] at h
        exact ih (a + 1) (d * 2) r h

/-! ### Structural lemmas about the download path -/

theorem downloadRemote_result_cached (env : Env) (vcache : VideoCache) (key path : String)
    (h : (downloadRemote env vcache key).result = some path) :
    lookupA (downloadRemote env vcache key).cache key = some path := by
  unfold downloadRemote at h ⊢
  cases hs : env.serviceAvailable
  · simp [hs] at h
  · simp only [hs, if_true] at h ⊢
    cases hr : (retryLoop env.downloadOracle 0 3 2).1 with
    | none => simp [hr] at h
    | some q =>
      simp only [hr] at h ⊢
      simp at h ⊢
      exact h

theorem downloadRemote_result_oracle (env : Env) (vcache : VideoCache) (key path : String)
    (h : (downloadRemote env vcache key).result = some path) :
    ∃ i, env.downloadOracle i = some path := by
  unfold downloadRemote at h
  cases hs : env.serviceAvailable
  · simp [hs] at h
  · simp only [hs, if_true] at h
    cases hr : (retryLoop env.downloadOracle 0 3 2).1 with
    | none => simp [hr] at h
    | some q =>
      simp [hr] at h
      exact h ▸ retryLoop_some_oracle env.downloadOracle 3 0 2 q hr

theorem downloadRemote_none_cache (env : Env) (vcache : VideoCache) (key : String)
    (h : (downloadRemote env vcache key).result = none) :
    (downloadRemote env vcache key).cache = vcache := by
  unfold downloadRemote at h ⊢
  cases hs : env.serviceAvailable
  · simp [hs]
  · simp only [hs, if_true] at h ⊢
    cases hr : (retryLoop env.downloadOracle 0 3 2).1 with
    | none => simp [hr]
    | some q => simp [hr] at h

theorem downloadRemote_first_success (env : Env) (vcache : VideoCache) (key fresh : String)
    (hs : env.serviceAvailable = true) (h0 : env.downloadOracle 0 = some fresh) :
    downloadRemote env vcache key = ⟨some fresh, insertA vcache key fresh, 1, [], true⟩ := by
  simp [downloadRemote, hs, retryLoop_first_some env.downloadOracle 0 2 2 fresh h0]

theorem downloadRemote_frame (env : Env) (vcache : VideoCache) (key k : String)
    (hk : key ≠ k) :
    lookupA (downloadRemote env vcache key).cache k = lookupA vcache k := by
  unfold downloadRemote
  cases hs : env.serviceAvailable
  · simp
  · cases hr : (retryLoop env.downloadOracle 0 3 2).1 with
    | none => simp [hr]
    | some q => simp [hr, lookupA_insertA_ne vcache key k q hk]

theorem downloadVideoToTemp_hit (env : Env) (vcache : VideoCache)
    (fileId filename path : String)
    (hc : lookupA vcache (cacheKey fileId filename) = some path)
    (hex : env.fileExists path = true) :
    downloadVideoToTemp env vcache fileId filename = ⟨some path, vcache, 0, [], false⟩ := by
  simp [downloadVideoToTemp, hc, hex]

theorem downloadVideoToTemp_dangling (env : Env) (vcache : VideoCache)
    (fileId filename stale : String)
    (hc : lookupA vcache (cacheKey fileId filename) = some stale)
    (hgone : env.fileExists stale = false) :
    downloadVideoToTemp env vcache fileId filename =
      downloadRemote env (eraseA vcache (cacheKey fileId filename))
        (cacheKey fileId filename) := by
  simp [downloadVideoToTemp, hc, hgone]

theorem downloadVideoToTemp_miss (env : Env) (vcache : VideoCache)
    (fileId filename : String)
    (hc : lookupA vcache (cacheKey fileId filename) = none) :
    downloadVideoToTemp env vcache fileId filename =
      downloadRemote env vcache (cacheKey fileId filename) := by
  simp [downloadVideoToTemp, hc]

theorem downloadVideoToTemp_result_cached (env : Env) (vcache : VideoCache)
    (fileId filename path : String)
    (h : (downloadVideoToTemp env vcache fileId filename).result = some path) :
    lookupA (downloadVideoToTemp env vcache fileId filename).cache
      (cacheKey fileId filename) = some path := by
  cases hc : lookupA vcache (cacheKey fileId filename) with
  | none =>
    rw [downloadVideoToTemp_miss env vcache fileId filename hc] at h ⊢
    exact downloadRemote_result_cached env vcache (cacheKey fileId filename) path h
  | some p =>
    cases hex : env.fileExists p
    · rw [downloadVideoToTemp_dangling env vcache fileId filename p hc hex] at h ⊢
      exact downloadRemote_result_cached env _ (cacheKey fileId filename) path h
    · rw [downloadVideoToTemp_hit env vcache fileId filename p hc hex] at h ⊢
      simp at h ⊢
      rw [← h, hc]

/-! ### Structural lemmas about the listing path -/

theorem listRemote_fail_result (env : Env) (cache : ListingCache) (folderId : String)
    (hfail : env.serviceAvailable = false ∨ ∀ i, i < 3 → env.listOracle i = none) :
    (listRemote env cache folderId).result = listFallback cache folderId ∧
    (listRemote env cache folderId).cache = cache := by
  unfold listRemote
  rcases hfail with h | h
  · simp [h]
  · cases hs : env.serviceAvailable
    · simp
    · have h0 := h 0 (by norm_num)
      have h1 := h 1 (by norm_num)
      have h2 := h 2 (by norm_num)
      simp [retryLoop_three_fail env.listOracle 1 h0 h1 h2]

theorem listRemote_calls_le (env : Env) (cache : ListingCache) (folderId : String) :
    (listRemote env cache folderId).remoteCalls ≤ 3 := by
  unfold listRemote
  cases hs : env.serviceAvailable
  · simp
  · cases hr : (retryLoop env.listOracle 0 3 1).1 <;>
      simpa [hr] using retryLoop_calls_le env.listOracle 3 0 1

theorem listRemote_third_success (env : Env) (cache : ListingCache) (folderId : String)
    (files : List Asset) (hs : env.serviceAvailable = true)
    (h0 : env.listOracle 0 = none) (h1 : env.listOracle 1 = none)
    (h2 : env.listOracle 2 = some files) :
    listRemote env cache folderId =
      ⟨files, insertA cache folderId (files, env.now), 3, [1, 2], true⟩ := by
  simp [listRemote, hs, retryLoop_third_success env.listOracle 1 files h0 h1 h2]

theorem listVideosInFolder_miss (env : Env) (cache : ListingCache) (folderId : String)
    (hc : lookupA cache folderId = none) :
    listVideosInFolder env cache folderId true = listRemote env cache folderId := by
  simp [listVideosInFolder, hc]

theorem listVideosInFolder_calls_le (env : Env) (cache : ListingCache) (folderId : String)
    (useCache : Bool) :
    (listVideosInFolder env cache folderId useCache).remoteCalls ≤ 3 := by
  unfold listVideosInFolder
  cases hc : (if useCache then lookupA cache folderId else none) with
  | none => simpa [hc] using listRemote_calls_le env cache folderId
  | some entry =>
    by_cases ht : env.now - entry.2 < VIDEO_LIST_CACHE_TTL
    · simp [hc, ht]
    · simpa [hc, ht] using listRemote_calls_le env cache folderId

theorem downloadVideoToTemp_calls_le (env : Env) (vcache : VideoCache)
    (fileId filename : String) :
    (downloadVideoToTemp env vcache fileId filename).downloadCalls ≤ 3 := by
  have hrem : ∀ (vc : VideoCache) (key : String),
      (downloadRemote env vc key).downloadCalls ≤ 3 := by
    intro vc key
    unfold downloadRemote
    cases hs : env.serviceAvailable
    · simp
    · cases hr : (retryLoop env.downloadOracle 0 3 2).1 <;>
        simpa [hr] using retryLoop_calls_le env.downloadOracle 3 0 2
  cases hc : lookupA vcache (cacheKey fileId filename) with
  | none =>
    rw [downloadVideoToTemp_miss env vcache fileId filename hc]
    exact hrem vcache (cacheKey fileId filename)
  | some p =>
    cases hex : env.fileExists p
    · rw [downloadVideoToTemp_dangling env vcache fileId filename p hc hex]
      exact hrem _ (cacheKey fileId filename)
    · rw [downloadVideoToTemp_hit env vcache fileId filename p hc hex]
      simp

theorem downloadRemote_third_success (env : Env) (vcache : VideoCache) (key path : String)
    (hs : env.serviceAvailable = true)
    (h0 : env.downloadOracle 0 = none) (h1 : env.downloadOracle 1 = none)
    (h2 : env.downloadOracle 2 = some path) :
    downloadRemote env vcache key = ⟨some path, insertA vcache key path, 3, [2, 4], true⟩ := by
  simp [downloadRemote, hs, retryLoop_third_success env.downloadOracle 2 path h0 h1 h2]

/-! ### Claim theorems -/

/-- C1: whenever the remote listing cannot be obtained (the service cannot
be created, or all three retry attempts fail), `list_videos_in_folder`
returns the previously cached listing if any cache entry — even one past
TTL — exists for the folder, and the empty list otherwise.  The embedded
operation is total, which reflects that the Python function catches every
exception internally and never raises. -/
theorem C1_unavailable_stale_fallback (env : Env) (cache : ListingCache)
    (folderId : String) (useCache : Bool)
    (hfail : env.serviceAvailable = false ∨ ∀ i, i < 3 → env.listOracle i = none) :
    (∀ videos t, lookupA cache folderId = some (videos, t) →
      (listVideosInFolder env cache folderId useCache).result = videos) ∧
    (lookupA cache folderId = none →
      (listVideosInFolder env cache folderId useCache).result = []) := by
  have hrem := listRemote_fail_result env cache folderId hfail
  constructor
  · intro videos t hc
    cases useCache with
    | false =>
      have heq : listVideosInFolder env cache folderId false = listRemote env cache folderId := by
        simp [listVideosInFolder]
      rw [heq, hrem.1]
      simp [listFallback, hc]
    | true =>
      by_cases ht : env.now - t < VIDEO_LIST_CACHE_TTL
      · simp [listVideosInFolder, hc, ht]
      · have heq : listVideosInFolder env cache folderId true = listRemote env cache folderId := by
          simp [listVideosInFolder, hc, ht]
        rw [heq, hrem.1]
        simp [listFallback, hc]
  · intro hc
    have heq : listVideosInFolder env cache folderId useCache = listRemote env cache folderId := by
      cases useCache <;> simp [listVideosInFolder, hc]
    rw [heq, hrem.1]
    simp [listFallback, hc]

/-- Environment with no remote service available at all. -/
def envOffline : Env :=
  ⟨false, fun _ => none, fun _ => none, fun _ => false, fun _ => false, 1000⟩

/-- Witness for C1: with the service unavailable and a cache entry fetched
at time 0 (long past the 300s TTL at now = 1000), the stale listing is
returned. -/
theorem C1_witness :
    (listVideosInFolder envOffline [("f", ([Asset.mk "i" "v.mp4"], 0))] "f" true).result =
      [Asset.mk "i" "v.mp4"] :=
  (C1_unavailable_stale_fallback envOffline [("f", ([Asset.mk "i" "v.mp4"], 0))] "f" true
      (Or.inl rfl)).1 [Asset.mk "i" "v.mp4"] 0 (by decide)

/-- C2: for a folder whose cache entry is less than 300 seconds old,
`list_videos_in_folder` with `use_cache = True` returns exactly the cached
listing, performs zero remote list calls, does not sleep, does not even
request the service object, and leaves the cache unchanged. -/
theorem C2_fresh_cache_hit (env : Env) (cache : ListingCache) (folderId : String)
    (videos : List Asset) (t : Nat)
    (hc : lookupA cache folderId = some (videos, t)) (ht : env.now - t < 300) :
    listVideosInFolder env cache folderId true = ⟨videos, cache, 0, [], false⟩ := by
  simp [listVideosInFolder, hc, VIDEO_LIST_CACHE_TTL, ht]

/-- Environment at time 100 with a working service (which a fresh cache
hit must not even consult). -/
def envFresh : Env :=
  ⟨true, fun _ => none, fun _ => none, fun _ => false, fun _ => false, 100⟩

/-- Witness for C2: a cache entry fetched at time 50 is still fresh at
time 100 and is served with zero remote calls. -/
theorem C2_witness :
    listVideosInFolder envFresh [("f", ([Asset.mk "i" "v.mp4"], 50))] "f" true =
      ⟨[Asset.mk "i" "v.mp4"], [("f", ([Asset.mk "i" "v.mp4"], 50))], 0, [], false⟩ :=
  C2_fresh_cache_hit envFresh [("f", ([Asset.mk "i" "v.mp4"], 50))] "f"
    [Asset.mk "i" "v.mp4"] 50 (by decide) (by decide)

/-- C3: both the listing and the download path make at most 3 remote
attempts; and when the first two attempts fail and the third succeeds,
the operation succeeds with exactly two inter-attempt sleeps — 1s then 2s
for listing, 2s then 4s for download (initial delay doubled after each
failure, no sleep after the final attempt). -/
theorem C3_retry_backoff :
    (∀ env cache folderId useCache,
      (listVideosInFolder env cache folderId useCache).remoteCalls ≤ 3) ∧
    (∀ env vcache fileId filename,
      (downloadVideoToTemp env vcache fileId filename).downloadCalls ≤ 3) ∧
    (∀ env cache folderId files, env.serviceAvailable = true →
      lookupA cache folderId = none →
      env.listOracle 0 = none → env.listOracle 1 = none → env.listOracle 2 = some files →
      listVideosInFolder env cache folderId true =
        ⟨files, insertA cache folderId (files, env.now), 3, [1, 2], true⟩) ∧
    (∀ env vcache fileId filename path, env.serviceAvailable = true →
      lookupA vcache (cacheKey fileId filename) = none →
      env.downloadOracle 0 = none → env.downloadOracle 1 = none →
      env.downloadOracle 2 = some path →
      downloadVideoToTemp env vcache fileId filename =
        ⟨some path, insertA vcache (cacheKey fileId filename) path, 3, [2, 4], true⟩) := by
  refine ⟨listVideosInFolder_calls_le, downloadVideoToTemp_calls_le, ?_, ?_⟩
  · intro env cache folderId files hs hc h0 h1 h2
    rw [listVideosInFolder_miss env cache folderId hc]
    exact listRemote_third_success env cache folderId files hs h0 h1 h2
  · intro env vcache fileId filename path hs hc h0 h1 h2
    rw [downloadVideoToTemp_miss env vcache fileId filename hc]
    exact downloadRemote_third_success env vcache (cacheKey fileId filename) path hs h0 h1 h2

/-- Environment whose list and download oracles fail on the first two
attempts and succeed on the third, at time 7. -/
def envRetry : Env :=
  ⟨true,
   fun i => if i < 2 then none else some [Asset.mk "i" "v.mp4"],
   fun i => if i < 2 then none else some "/tmp/v",
   fun _ => false, fun _ => false, 7⟩

/-- Witness for C3: with two failures then a success, listing sleeps 1s
then 2s and download sleeps 2s then 4s, both making 3 attempts. -/
theorem C3_witness :
    listVideosInFolder envRetry [] "f" true =
      ⟨[Asset.mk "i" "v.mp4"], insertA [] "f" ([Asset.mk "i" "v.mp4"], 7), 3, [1, 2], true⟩ ∧
    downloadVideoToTemp envRetry [] "d" "v.mp4" =
      ⟨some "/tmp/v", insertA [] (cacheKey "d" "v.mp4") "/tmp/v", 3, [2, 4], true⟩ :=
  ⟨C3_retry_backoff.2.2.1 envRetry [] "f" [Asset.mk "i" "v.mp4"] rfl (by decide)
      (by decide) (by decide) (by decide),
   C3_retry_backoff.2.2.2 envRetry [] "d" "v.mp4" "/tmp/v" rfl (by decide)
      (by decide) (by decide) (by decide)⟩

/-- C4: after a call to `download_video_to_temp` for `(file_id, filename)`
succeeded with some path, a second call for the same pair — possibly in a
different environment, as long as the file still exists on disk — returns
the same path, performs zero download attempts, and does not even request
the service object. -/
theorem C4_download_roundtrip (env1 env2 : Env) (vcache : VideoCache)
    (fileId filename path : String)
    (h1 : (downloadVideoToTemp env1 vcache fileId filename).result = some path)
    (hex : env2.fileExists path = true) :
    downloadVideoToTemp env2 (downloadVideoToTemp env1 vcache fileId filename).cache
        fileId filename =
      ⟨some path, (downloadVideoToTemp env1 vcache fileId filename).cache, 0, [], false⟩ :=
  downloadVideoToTemp_hit env2 _ fileId filename path
    (downloadVideoToTemp_result_cached env1 vcache fileId filename path h1) hex

/-- Environment for the round-trip witness: the first download succeeds
immediately and the produced file persists on disk. -/
def envRoundTrip : Env :=
  ⟨true, fun _ => none, fun _ => some "/tmp/v", fun p => p == "/tmp/v",
   fun _ => false, 0⟩

/-- Witness for C4: download once, then a second call returns the same
path with zero download attempts. -/
theorem C4_witness :
    downloadVideoToTemp envRoundTrip (downloadVideoToTemp envRoundTrip [] "d" "v.mp4").cache
        "d" "v.mp4" =
      ⟨some "/tmp/v", (downloadVideoToTemp envRoundTrip [] "d" "v.mp4").cache, 0, [], false⟩ :=
  C4_download_roundtrip envRoundTrip envRoundTrip [] "d" "v.mp4" "/tmp/v"
    (by decide) (by decide)

/-- C5: when the cached file for a key has been deleted externally,
`download_video_to_temp` never returns the stale path (the download
oracle models `tempfile.NamedTemporaryFile`, which always allocates a
fresh file, hence never yields the vanished path); if the call fails the
evicted entry is gone from the cache; and when the service is available
and the first fresh attempt succeeds, the call performs exactly one
download attempt and returns the fresh path. -/
theorem C5_dangling_eviction (env : Env) (vcache : VideoCache)
    (fileId filename stale fresh : String)
    (hc : lookupA vcache (cacheKey fileId filename) = some stale)
    (hgone : env.fileExists stale = false)
    (hfresh : ∀ i, env.downloadOracle i ≠ some stale) :
    (downloadVideoToTemp env vcache fileId filename).result ≠ some stale ∧
    ((downloadVideoToTemp env vcache fileId filename).result = none →
      lookupA (downloadVideoToTemp env vcache fileId filename).cache
        (cacheKey fileId filename) = none) ∧
    (env.serviceAvailable = true → env.downloadOracle 0 = some fresh →
      downloadVideoToTemp env vcache fileId filename =
        ⟨some fresh,
         insertA (eraseA vcache (cacheKey fileId filename)) (cacheKey fileId filename) fresh,
         1, [], true⟩) := by
  rw [downloadVideoToTemp_dangling env vcache fileId filename stale hc hgone]
  refine ⟨?_, ?_, ?_⟩
  · intro habs
    obtain ⟨i, hi⟩ :=
      downloadRemote_result_oracle env _ (cacheKey fileId filename) stale habs
    exact hfresh i hi
  · intro hnone
    rw [downloadRemote_none_cache env _ (cacheKey fileId filename) hnone]
    exact lookupA_eraseA_self vcache (cacheKey fileId filename)
  · intro hs h0
    exact downloadRemote_first_success env _ (cacheKey fileId filename) fresh hs h0

/-- Environment for the eviction witness: the old file `/tmp/old` has
vanished from disk, and a fresh download immediately yields `/tmp/new`. -/
def envEvict : Env :=
  ⟨true, fun _ => none, fun _ => some "/tmp/new", fun p => p == "/tmp/new",
   fun _ => false, 0⟩

/-- Witness for C5: a dangling entry for `/tmp/old` is evicted and one
fresh download returns `/tmp/new`. -/
theorem C5_witness :
    downloadVideoToTemp envEvict [(cacheKey "d" "v.mp4", "/tmp/old")] "d" "v.mp4" =
      ⟨some "/tmp/new",
       insertA (eraseA [(cacheKey "d" "v.mp4", "/tmp/old")] (cacheKey "d" "v.mp4"))
         (cacheKey "d" "v.mp4") "/tmp/new",
       1, [], true⟩ :=
  (C5_dangling_eviction envEvict [(cacheKey "d" "v.mp4", "/tmp/old")] "d" "v.mp4"
      "/tmp/old" "/tmp/new" (by decide) (by decide)
      (fun i h => absurd (Option.some.inj h) (by decide))).2.2 rfl (by decide)

/-- C10: a cache hit whose file exists on disk is served without
requesting or creating the remote service at all, with zero download
attempts — so an already-downloaded asset stays resolvable even in an
environment where the service cannot be created. -/
theorem C10_cache_hit_no_service (env : Env) (vcache : VideoCache)
    (fileId filename path : String)
    (hc : lookupA vcache (cacheKey fileId filename) = some path)
    (hex : env.fileExists path = true) :
    downloadVideoToTemp env vcache fileId filename = ⟨some path, vcache, 0, [], false⟩ :=
  downloadVideoToTemp_hit env vcache fileId filename path hc hex

/-- Environment for the C10 witness: the service cannot be created, yet
the cached file `/tmp/v` exists on disk. -/
def envHitOffline : Env :=
  ⟨false, fun _ => none, fun _ => none, fun p => p == "/tmp/v", fun _ => false, 0⟩

/-- Witness for C10: with the service unavailable, a cached download whose
file exists is still returned, with the service never requested. -/
theorem C10_witness :
    downloadVideoToTemp envHitOffline [(cacheKey "d" "v.mp4", "/tmp/v")] "d" "v.mp4" =
      ⟨some "/tmp/v", [(cacheKey "d" "v.mp4", "/tmp/v")], 0, [], false⟩ :=
  C10_cache_hit_no_service envHitOffline [(cacheKey "d" "v.mp4", "/tmp/v")] "d" "v.mp4"
    "/tmp/v" (by decide) (by decide)

/-- `download_video_to_temp` never reads or writes a cache entry other
than the one at its own string key `file_id + "_" + filename`. -/
theorem downloadVideoToTemp_frame (env : Env) (vcache : VideoCache)
    (fileId filename k : String) (hk : cacheKey fileId filename ≠ k) :
    lookupA (downloadVideoToTemp env vcache fileId filename).cache k = lookupA vcache k := by
  cases hc : lookupA vcache (cacheKey fileId filename) with
  | none =>
    rw [downloadVideoToTemp_miss env vcache fileId filename hc]
    exact downloadRemote_frame env vcache (cacheKey fileId filename) k hk
  | some p =>
    cases hex : env.fileExists p
    · rw [downloadVideoToTemp_dangling env vcache fileId filename p hc hex,
        downloadRemote_frame env _ (cacheKey fileId filename) k hk]
      exact lookupA_eraseA_ne vcache (cacheKey fileId filename) k hk
    · rw [downloadVideoToTemp_hit env vcache fileId filename p hc hex]

/-- Environment in which every download immediately yields `/tmp/x`,
which then exists on disk. -/
def envCollide : Env :=
  ⟨true, fun _ => none, fun _ => some "/tmp/x", fun p => p == "/tmp/x",
   fun _ => false, 0⟩

/-- Counterexample to C6 as stated: the download cache is keyed by the
string `file_id + "_" + filename`, not by the pair, so the distinct pairs
`("a", "b_c")` and `("a_b", "c")` share the key `"a_b_c"`; after the first
pair's call downloads and caches `/tmp/x`, the second pair's call reads
that same entry — it returns the first call's path with zero download
attempts and without requesting the service. -/
theorem C6_counterexample :
    ("a", "b_c") ≠ ("a_b", "c") ∧
    cacheKey "a" "b_c" = cacheKey "a_b" "c" ∧
    (downloadVideoToTemp envCollide [] "a" "b_c").cache = [(cacheKey "a" "b_c", "/tmp/x")] ∧
    downloadVideoToTemp envCollide (downloadVideoToTemp envCollide [] "a" "b_c").cache
        "a_b" "c" =
      ⟨some "/tmp/x", (downloadVideoToTemp envCollide [] "a" "b_c").cache, 0, [], false⟩ := by
  decide

/-- C6 amended: the download cache is keyed by the concatenated string
`file_id + "_" + filename`; for every two calls whose concatenated keys
differ, the calls never read or write the same cache entry — the first
call leaves the second call's entry untouched, and the second call leaves
the first call's entry untouched.  (Distinct pairs can collide when their
concatenations coincide, as the counterexample shows.) -/
theorem C6_amended (env1 env2 : Env) (vc : VideoCache) (f1 n1 f2 n2 : String)
    (hne : cacheKey f1 n1 ≠ cacheKey f2 n2) :
    lookupA (downloadVideoToTemp env1 vc f1 n1).cache (cacheKey f2 n2) =
      lookupA vc (cacheKey f2 n2) ∧
    lookupA (downloadVideoToTemp env2 (downloadVideoToTemp env1 vc f1 n1).cache f2 n2).cache
        (cacheKey f1 n1) =
      lookupA (downloadVideoToTemp env1 vc f1 n1).cache (cacheKey f1 n1) :=
  ⟨downloadVideoToTemp_frame env1 vc f1 n1 (cacheKey f2 n2) hne,
   downloadVideoToTemp_frame env2 _ f2 n2 (cacheKey f1 n1) (Ne.symm hne)⟩

/-- Witness for the amended C6: two calls with distinct concatenated keys
leave each other's entries alone. -/
theorem C6_witness :
    lookupA (downloadVideoToTemp envCollide [] "a" "x.mp4").cache (cacheKey "b" "y.mp4") =
      lookupA [] (cacheKey "b" "y.mp4") ∧
    lookupA (downloadVideoToTemp envCollide (downloadVideoToTemp envCollide [] "a" "x.mp4").cache
        "b" "y.mp4").cache (cacheKey "a" "x.mp4") =
      lookupA (downloadVideoToTemp envCollide [] "a" "x.mp4").cache (cacheKey "a" "x.mp4") :=
  C6_amended envCollide envCollide [] "a" "x.mp4" "b" "y.mp4" (by decide)

/-- Environment whose folder listing contains exactly `a.mp4` but whose
download oracle always fails. -/
def envListOnly : Env :=
  ⟨true, fun _ => some [Asset.mk "id1" "a.mp4"], fun _ => none,
   fun _ => false, fun _ => false, 0⟩

/-- Counterexample to C7 as stated: `get_video_path` returns `None` both
when no asset matches (`b.mp4`) and when the asset exists but its download
fails after all retries (`a.mp4`), so the caller cannot distinguish those
two outcomes from the returned value. -/
theorem C7_counterexample :
    (getVideoPath envListOnly [] [] "b.mp4" "f").result = none ∧
    (getVideoPath envListOnly [] [] "a.mp4" "f").result = none ∧
    (getVideoPath envListOnly [] [] "a.mp4" "f").downloadCalls = 3 ∧
    (getVideoPath envListOnly [] [] "b.mp4" "f").downloadCalls = 0 ∧
    (getVideoPath envListOnly [] [] "b.mp4" "f").result =
      (getVideoPath envListOnly [] [] "a.mp4" "f").result := by
  decide

/-- C7 amended: from the value `get_video_path` returns, the caller can
distinguish only "result returned" (a path) from the two failure
outcomes; "no matching asset in the listing" and "asset exists but its
download failed" both yield `None` and are not distinguishable from the
value alone. -/
theorem C7_amended (env : Env) (lc : ListingCache) (vc : VideoCache)
    (filename folderId : String) :
    (((listVideosInFolder env lc folderId true).result.find?
        (fun v => v.name == filename)) = none →
      (getVideoPath env lc vc filename folderId).result = none) ∧
    (∀ v, ((listVideosInFolder env lc folderId true).result.find?
        (fun v2 => v2.name == filename)) = some v →
      (downloadVideoToTemp env vc v.id filename).result = none →
      (getVideoPath env lc vc filename folderId).result = none) ∧
    (∀ v p, ((listVideosInFolder env lc folderId true).result.find?
        (fun v2 => v2.name == filename)) = some v →
      (downloadVideoToTemp env vc v.id filename).result = some p →
      (getVideoPath env lc vc filename folderId).result = some p) := by
  unfold getVideoPath
  refine ⟨?_, ?_, ?_⟩
  · intro h
    simp [h]
  · intro v hv hd
    simp [hv, hd]
  · intro v p hv hd
    simp [hv, hd]

/-- Witness for the amended C7: in `envListOnly` both the no-match call
and the failed-download call return `None`. -/
theorem C7_witness :
    (getVideoPath envListOnly [] [] "b.mp4" "f").result = none ∧
    (getVideoPath envListOnly [] [] "a.mp4" "f").result = none :=
  ⟨(C7_amended envListOnly [] [] "b.mp4" "f").1 (by decide),
   (C7_amended envListOnly [] [] "a.mp4" "f").2.1 (Asset.mk "id1" "a.mp4")
     (by decide) (by decide)⟩

/-- The first element of `l1 ++ v :: l2` satisfying `p`, when nothing in
`l1` does and `v` does, is `v`. -/
theorem find_first_match {α : Type} (p : α → Bool) :
    ∀ (l1 : List α) (v : α) (l2 : List α), p v = true → (∀ u ∈ l1, p u = false) →
      (l1 ++ v :: l2).find? p = some v := by
  intro l1
  induction l1 with
  | nil =>
    intro v l2 hv _
    simpa using List.find?_cons_of_pos l2 hv
  | cons a rest ih =>
    intro v l2 hv hl
    have ha : ¬ p a := by simp [hl a (List.mem_cons_self a rest)]
    rw [List.cons_append, List.find?_cons_of_neg _ ha]
    exact ih v l2 hv (fun u hu => hl u (List.mem_cons_of_mem a hu))

/-- C8: `get_video_path` matches the requested filename against listing
entries by exact, case-sensitive string equality; when no entry matches it
returns `None` with the download cache untouched and zero download
attempts; when some entry matches, the first matching entry's id is the
one delegated to the download path. -/
theorem C8_exact_first_match (env : Env) (lc : ListingCache) (vc : VideoCache)
    (filename folderId : String) :
    ((∀ v ∈ (listVideosInFolder env lc folderId true).result, v.name ≠ filename) →
      getVideoPath env lc vc filename folderId =
        ⟨none, (listVideosInFolder env lc folderId true).cache, vc,
         (listVideosInFolder env lc folderId true).remoteCalls, 0⟩) ∧
    (∀ l1 v l2, (listVideosInFolder env lc folderId true).result = l1 ++ v :: l2 →
      v.name = filename → (∀ u ∈ l1, u.name ≠ filename) →
      getVideoPath env lc vc filename folderId =
        ⟨(downloadVideoToTemp env vc v.id filename).result,
         (listVideosInFolder env lc folderId true).cache,
         (downloadVideoToTemp env vc v.id filename).cache,
         (listVideosInFolder env lc folderId true).remoteCalls,
         (downloadVideoToTemp env vc v.id filename).downloadCalls⟩) := by
  constructor
  · intro hno
    have hfind : (listVideosInFolder env lc folderId true).result.find?
        (fun v => v.name == filename) = none := by
      rw [List.find?_eq_none]
      intro x hx
      simp [hno x hx]
    unfold getVideoPath
    simp [hfind]
  · intro l1 v l2 hl hv hfirst
    have hfind : (listVideosInFolder env lc folderId true).result.find?
        (fun u => u.name == filename) = some v := by
      rw [hl]
      refine find_first_match _ l1 v l2 ?_ ?_
      · simp [hv]
      · intro u hu
        simp [hfirst u hu]
    unfold getVideoPath
    simp [hfind]

/-- Environment whose folder listing is `A.mp4`, `b.mp4`, `b.mp4` (with
distinct ids) and whose downloads immediately yield `/tmp/b`. -/
def envNames : Env :=
  ⟨true,
   fun _ => some [Asset.mk "1" "A.mp4", Asset.mk "2" "b.mp4", Asset.mk "3" "b.mp4"],
   fun _ => some "/tmp/b", fun _ => false, fun _ => false, 0⟩

/-- Witness for C8: `a.mp4` does not match `A.mp4` (case-sensitive), so
resolution returns `None` with zero download attempts; `b.mp4` matches the
first of the two entries named `b.mp4`, the one with id `2`. -/
theorem C8_witness :
    getVideoPath envNames [] [] "a.mp4" "f" =
      ⟨none, (listVideosInFolder envNames [] "f" true).cache, [],
       (listVideosInFolder envNames [] "f" true).remoteCalls, 0⟩ ∧
    getVideoPath envNames [] [] "b.mp4" "f" =
      ⟨(downloadVideoToTemp envNames [] "2" "b.mp4").result,
       (listVideosInFolder envNames [] "f" true).cache,
       (downloadVideoToTemp envNames [] "2" "b.mp4").cache,
       (listVideosInFolder envNames [] "f" true).remoteCalls,
       (downloadVideoToTemp envNames [] "2" "b.mp4").downloadCalls⟩ :=
  ⟨(C8_exact_first_match envNames [] [] "a.mp4" "f").1 (by decide),
   (C8_exact_first_match envNames [] [] "b.mp4" "f").2 [Asset.mk "1" "A.mp4"]
     (Asset.mk "2" "b.mp4") [Asset.mk "3" "b.mp4"] (by decide) rfl (by decide)⟩

/-- C9: after `clear_video_cache` the in-memory download map is empty and
the listing cache is exactly as before; an entry's backing file is deleted
exactly when it exists and its `os.unlink` does not fail, independently of
failures on other entries; and a subsequent download for any key misses
the emptied cache and performs at least one fresh download attempt
whenever the service is available. -/
theorem C9_clear_cache (env env2 : Env) (lc : ListingCache) (vc : VideoCache) :
    (clearVideoCache env lc vc).videoCache = [] ∧
    (clearVideoCache env lc vc).listingCache = lc ∧
    (∀ p, p ∈ (clearVideoCache env lc vc).deletedPaths ↔
      ∃ k, (k, p) ∈ vc ∧ env.fileExists p = true ∧ env.unlinkFails p = false) ∧
    (∀ fileId filename, env2.serviceAvailable = true →
      1 ≤ (downloadVideoToTemp env2 (clearVideoCache env lc vc).videoCache
        fileId filename).downloadCalls) := by
  refine ⟨rfl, rfl, ?_, ?_⟩
  · intro p
    simp only [clearVideoCache, List.mem_filterMap]
    constructor
    · rintro ⟨e, he, hfe⟩
      by_cases hcnd : (env.fileExists e.2 && !env.unlinkFails e.2) = true
      · rw [if_pos hcnd] at hfe
        have h12 : env.fileExists e.2 = true ∧ env.unlinkFails e.2 = false := by
          simpa using hcnd
        injection hfe with hfe
        subst hfe
        exact ⟨e.1, he, h12.1, h12.2⟩
      · rw [if_neg hcnd] at hfe
        exact absurd hfe (by simp)
    · rintro ⟨k, hk, hex, hnf⟩
      exact ⟨(k, p), hk, by simp [hex, hnf]⟩
  · intro fileId filename hs
    rw [show (clearVideoCache env lc vc).videoCache = [] from rfl,
      downloadVideoToTemp_miss env2 [] fileId filename rfl]
    unfold downloadRemote
    simp only [hs, if_true]
    cases hr : (retryLoop env2.downloadOracle 0 3 2).1 <;>
      simpa [hr] using retryLoop_calls_pos env2.downloadOracle 2 0 2

/-- Environment for the clearing witness: `/tmp/a` and `/tmp/b` exist on
disk but unlinking `/tmp/a` fails; downloads immediately yield `/tmp/n`. -/
def envClear : Env :=
  ⟨true, fun _ => none, fun _ => some "/tmp/n",
   fun p => p == "/tmp/a" || p == "/tmp/b", fun p => p == "/tmp/a", 0⟩

/-- Download cache with three entries: one whose deletion fails, one that
is deleted, one whose file is already gone. -/
def vcClear : VideoCache :=
  [("k1", "/tmp/a"), ("k2", "/tmp/b"), ("k3", "/tmp/c")]

/-- Witness for C9: clearing empties the map, preserves the listing
cache, still deletes `/tmp/b` although unlinking `/tmp/a` failed, and a
subsequent download performs a fresh attempt. -/
theorem C9_witness :
    (clearVideoCache envClear [("f", ([], 5))] vcClear).videoCache = [] ∧
    (clearVideoCache envClear [("f", ([], 5))] vcClear).listingCache = [("f", ([], 5))] ∧
    ("/tmp/b" ∈ (clearVideoCache envClear [("f", ([], 5))] vcClear).deletedPaths ↔
      ∃ k, (k, "/tmp/b") ∈ vcClear ∧ envClear.fileExists "/tmp/b" = true ∧
        envClear.unlinkFails "/tmp/b" = false) ∧
    1 ≤ (downloadVideoToTemp envClear
      (clearVideoCache envClear [("f", ([], 5))] vcClear).videoCache "d" "v.mp4").downloadCalls :=
  ⟨(C9_clear_cache envClear envClear [("f", ([], 5))] vcClear).1,
   (C9_clear_cache envClear envClear [("f", ([], 5))] vcClear).2.1,
   (C9_clear_cache envClear envClear [("f", ([], 5))] vcClear).2.2.1 "/tmp/b",
   (C9_clear_cache envClear envClear [("f", ([], 5))] vcClear).2.2.2 "d" "v.mp4" rfl⟩

end GDrive
